import Mathlib

/-!
Shallow embedding of the beehive example (scarab_examples/beehive/beehive.py).

Python floats are modelled as rationals; all arithmetic appearing in the
claims is exact in binary floating point at the inputs considered, so the
rational model agrees with the source on those values.  Simulation times
are Python ints, modelled as integers.  A Python assert that can fail is
modelled by returning an Option, with none standing for the raised
AssertionError/KeyError; handlers whose asserts cannot fail on the modelled
argument types are total functions.
-/

/-- Snapshot of a remote bee entity as delivered in created/changed/destroyed
notifications: a stable identifier plus the two behaviour flags the Beehive
reads. -/
structure BeeRec where
  guid : ℕ
  is_buzzing : Bool
  is_fanning : Bool
  deriving DecidableEq, Repr

/-- A Bee entity: comfort bounds and the two behaviour flags
(beehive.py, class Bee). -/
structure Bee where
  buzz_temp : ℚ
  fan_temp : ℚ
  is_buzzing : Bool
  is_fanning : Bool
  deriving DecidableEq, Repr

/-- Bee.__init__: asserts truthiness of both bounds (fails exactly on a zero
threshold for numeric arguments), stores them and starts with both flags
false.  The result is none when an assert fires. -/
def Bee.init (buzz_temp fan_temp : ℚ) : Option Bee :=
  if buzz_temp = 0 then none
  else if fan_temp = 0 then none
  else some { buzz_temp := buzz_temp, fan_temp := fan_temp,
              is_buzzing := false, is_fanning := false }

/-- Bee.handle_temperature_change: reacts to a beehive-changed notification.
The handler only acts when the string current_temp is among the changed
properties; it then classifies the hive temperature against the comfort
bounds.  new_temp is the current_temp read off the delivered beehive
snapshot. -/
def Bee.handle_temperature_change (bee : Bee) (new_temp : ℚ)
    (changed_properties : List String) : Bee :=
  if "current_temp" ∈ changed_properties then
    if new_temp < bee.buzz_temp then
      { bee with is_buzzing := true, is_fanning := false }
    else if new_temp > bee.fan_temp then
      { bee with is_buzzing := false, is_fanning := true }
    else
      { bee with is_buzzing := false, is_fanning := false }
  else bee

/-- Dict read m[k]: the value at the key, none when the key is absent
(Python raises KeyError). -/
def dictGet (m : List (ℕ × BeeRec)) (k : ℕ) : Option BeeRec :=
  (m.find? (fun p => p.1 == k)).map Prod.snd

/-- Dict write m[k] = v: overwrites in place when the key is present,
appends otherwise (Python dicts keep the original insertion position). -/
def dictSet (m : List (ℕ × BeeRec)) (k : ℕ) (v : BeeRec) : List (ℕ × BeeRec) :=
  if (m.find? (fun p => p.1 == k)).isSome then
    m.map (fun p => if p.1 == k then (k, v) else p)
  else
    m ++ [(k, v)]

/-- Dict m.pop(k) restricted to the resulting dict: drops the entry at the
key (under the no-duplicate-keys invariant this is exactly Python pop). -/
def dictPop (m : List (ℕ × BeeRec)) (k : ℕ) : List (ℕ × BeeRec) :=
  m.filter (fun p => p.1 != k)

/-- A Beehive entity (beehive.py, class Beehive): hive temperature, last
known outside reading, the two impact coefficients, the three counters and
the tracked bee-state mapping. -/
structure Beehive where
  current_temp : ℚ
  outside_temp : ℚ
  buzzing_impact : ℚ
  fanning_impact : ℚ
  number_bees : ℤ
  number_bees_buzzing : ℤ
  number_bees_fanning : ℤ
  known_bees : List (ℕ × BeeRec)
  deriving DecidableEq, Repr

/-- Beehive.__init__: current and outside temperature both start at
start_temp, counters at zero, the tracked mapping empty. -/
def Beehive.init (start_temp buzzing_impact fanning_impact : ℚ) : Beehive :=
  { current_temp := start_temp
    outside_temp := start_temp
    buzzing_impact := buzzing_impact
    fanning_impact := fanning_impact
    number_bees := 0
    number_bees_buzzing := 0
    number_bees_fanning := 0
    known_bees := [] }

/-- Beehive.get_number_bees_buzzing: sum of 1 over the tracked bee values
whose is_buzzing flag is set. -/
def Beehive.get_number_bees_buzzing (h : Beehive) : ℕ :=
  ((h.known_bees.map Prod.snd).filter (fun b => b.is_buzzing)).length

/-- Beehive.get_number_bees_fanning: sum of 1 over the tracked bee values
whose is_fanning flag is set. -/
def Beehive.get_number_bees_fanning (h : Beehive) : ℕ :=
  ((h.known_bees.map Prod.snd).filter (fun b => b.is_fanning)).length

/-- Beehive.handle_outside_temperature_update: asserts the changed-property
set is nonempty, then stores the delivered outside reading. -/
def Beehive.handle_outside_temperature_update (h : Beehive)
    (outside_current_temp : ℚ) (changed_properties : List String) : Option Beehive :=
  if changed_properties.isEmpty then none
  else some { h with outside_temp := outside_current_temp }

/-- Beehive.handle_time_update: asserts new_time > previous_time, then adds
the bee impact scaled by the elapsed time and an outside-temperature impact
of 0.2 times the absolute temperature gap.  Both branches of the source add
a nonnegative quantity: the impact magnitude is symmetric but the sign is
positive in both cases. -/
def Beehive.handle_time_update (h : Beehive) (previous_time new_time : ℤ) :
    Option Beehive :=
  if new_time > previous_time then
    let bee_impact : ℚ :=
      (h.get_number_bees_buzzing : ℚ) * h.buzzing_impact -
        (h.get_number_bees_fanning : ℚ) * h.fanning_impact
    let total_bee_impact : ℚ := bee_impact * ((new_time : ℚ) - (previous_time : ℚ))
    let outside_temp_impact : ℚ :=
      if h.outside_temp > h.current_temp then
        0.2 * (h.outside_temp - h.current_temp)
      else
        0.2 * (h.current_temp - h.outside_temp)
    some { h with current_temp := h.current_temp + outside_temp_impact + total_bee_impact }
  else none

/-- Beehive.handle_new_bee: increment number_bees, register the snapshot,
and bump the buzzing/fanning counters when the corresponding flag is set. -/
def Beehive.handle_new_bee (h : Beehive) (bee : BeeRec) : Beehive :=
  { h with
    number_bees := h.number_bees + 1
    known_bees := dictSet h.known_bees bee.guid bee
    number_bees_fanning :=
      if bee.is_fanning then h.number_bees_fanning + 1 else h.number_bees_fanning
    number_bees_buzzing :=
      if bee.is_buzzing then h.number_bees_buzzing + 1 else h.number_bees_buzzing }

/-- Beehive.handle_dead_bee: decrement number_bees, pop the tracked snapshot
(none when the guid is untracked: Python raises KeyError), and decrement the
counters matching the popped bee's flags. -/
def Beehive.handle_dead_bee (h : Beehive) (guid : ℕ) : Option Beehive :=
  match dictGet h.known_bees guid with
  | none => none
  | some bee =>
      some { h with
        number_bees := h.number_bees - 1
        known_bees := dictPop h.known_bees guid
        number_bees_fanning :=
          if bee.is_fanning then h.number_bees_fanning - 1 else h.number_bees_fanning
        number_bees_buzzing :=
          if bee.is_buzzing then h.number_bees_buzzing - 1 else h.number_bees_buzzing }

/-- Beehive.handle_bee_update: asserts a nonempty changed-property set, looks
up the previous snapshot (none when the guid is untracked: Python raises
KeyError before any state is mutated), replaces the snapshot and adjusts the
two counters edge-triggered on the old/new flag values. -/
def Beehive.handle_bee_update (h : Beehive) (bee : BeeRec)
    (changed_properties : List String) : Option Beehive :=
  if changed_properties.isEmpty then none
  else
    match dictGet h.known_bees bee.guid with
    | none => none
    | some prev_bee =>
        let nf1 :=
          if prev_bee.is_fanning && !bee.is_fanning then h.number_bees_fanning - 1
          else h.number_bees_fanning
        let nf2 := if bee.is_fanning && !prev_bee.is_fanning then nf1 + 1 else nf1
        let nb1 :=
          if prev_bee.is_buzzing && !bee.is_buzzing then h.number_bees_buzzing - 1
          else h.number_bees_buzzing
        let nb2 := if bee.is_buzzing && !prev_bee.is_buzzing then nb1 + 1 else nb1
        some { h with
          known_bees := dictSet h.known_bees bee.guid bee
          number_bees_fanning := nf2
          number_bees_buzzing := nb2 }

/-- An OutsideTemperature entity (beehive.py, class OutsideTemperature):
bounds, the per-minute increment, the precomputed daily curve and the
current reading. -/
structure OutsideTemperature where
  min_temp : ℚ
  max_temp : ℚ
  increment_change : ℚ
  minute_temps : List ℚ
  current_temp : ℚ
  deriving DecidableEq, Repr

/-- OutsideTemperature.__init__: precompute 720 ascending samples starting
at min_temp and 720 descending samples starting at max_temp, one per minute;
current_temp starts at the first sample. -/
def OutsideTemperature.init (min_temp max_temp : ℚ) : OutsideTemperature :=
  let increment_change : ℚ := (max_temp - min_temp) / (24 * 60 / 2)
  let minute_temps : List ℚ :=
    ((List.range (12 * 60)).map
        (fun minute : ℕ => min_temp + increment_change * (minute : ℚ))) ++
      ((List.range (12 * 60)).map
        (fun minute : ℕ => max_temp - increment_change * (minute : ℚ)))
  { min_temp := min_temp
    max_temp := max_temp
    increment_change := increment_change
    minute_temps := minute_temps
    current_temp := minute_temps.getD 0 0 }

/-- OutsideTemperature.handle_time_update: a pure table lookup at index
new_time mod the cycle length.  The source's only assert, that
previous_time is not None, cannot fail for an integer argument, so the
handler is total. -/
def OutsideTemperature.handle_time_update (ot : OutsideTemperature)
    (previous_time new_time : ℤ) : OutsideTemperature :=
  { ot with
    current_temp := ot.minute_temps.getD
      ((new_time % (ot.minute_temps.length : ℤ)).toNat) 0 }

/-- The BeehiveDisplayModel entity, restricted to the fields its
time-advance handler touches (plus its min/max statistics fields). -/
structure BeehiveDisplayModel where
  min_outside_temp : ℚ
  max_outside_temp : ℚ
  min_hive_temp : ℚ
  max_hive_temp : ℚ
  min_number_bees : ℤ
  max_number_bees : ℤ
  min_number_bees_buzzing : ℤ
  max_number_bees_buzzing : ℤ
  min_number_bees_fanning : ℤ
  max_number_bees_fanning : ℤ
  previous_time : ℤ
  new_time : ℤ
  deriving DecidableEq, Repr

/-- BeehiveDisplayModel.__init__: mins start at a very large number, maxes
at zero, previous_time at -1 and new_time at 0. -/
def BeehiveDisplayModel.init : BeehiveDisplayModel :=
  { min_outside_temp := 1000000
    max_outside_temp := 0
    min_hive_temp := 1000000
    max_hive_temp := 0
    min_number_bees := 1000000
    max_number_bees := 0
    min_number_bees_buzzing := 1000000
    max_number_bees_buzzing := 0
    min_number_bees_fanning := 1000000
    max_number_bees_fanning := 0
    previous_time := -1
    new_time := 0 }

/-- BeehiveDisplayModel.handle_time_update: records the delivered pair of
timestamps.  Its only assert, that previous_time is not None, cannot fail
for an integer argument, so the handler is total and in particular does not
require new_time > previous_time. -/
def BeehiveDisplayModel.handle_time_update (d : BeehiveDisplayModel)
    (previous_time new_time : ℤ) : BeehiveDisplayModel :=
  { d with previous_time := previous_time, new_time := new_time }

/-! ### Lemmas about the precomputed daily temperature curve -/

/-- The precomputed curve has one sample per minute of a day. -/
theorem OutsideTemperature.length_minute_temps (mn mx : ℚ) :
    (OutsideTemperature.init mn mx).minute_temps.length = 1440 := by
  simp [OutsideTemperature.init]

/-- Ascending half of the curve: sample i (i < 720) is min_temp plus i
increments. -/
theorem OutsideTemperature.minute_temps_getD_of_lt (mn mx : ℚ) (i : ℕ) (h : i < 720) :
    (OutsideTemperature.init mn mx).minute_temps.getD i 0
      = mn + (mx - mn) / 720 * i := by
  have hlen : i < (OutsideTemperature.init mn mx).minute_temps.length := by
    rw [OutsideTemperature.length_minute_temps]; omega
  rw [List.getD_eq_getElem _ _ hlen]
  simp only [OutsideTemperature.init]
  rw [List.getElem_append_left (by simp; omega), List.getElem_map, List.getElem_range]
  norm_num

/-- Descending half of the curve: sample i (720 ≤ i < 1440) is max_temp
minus i - 720 increments. -/
theorem OutsideTemperature.minute_temps_getD_of_ge (mn mx : ℚ) (i : ℕ)
    (h1 : 720 ≤ i) (h2 : i < 1440) :
    (OutsideTemperature.init mn mx).minute_temps.getD i 0
      = mx - (mx - mn) / 720 * ((i : ℚ) - 720) := by
  have hlen : i < (OutsideTemperature.init mn mx).minute_temps.length := by
    rw [OutsideTemperature.length_minute_temps]; omega
  rw [List.getD_eq_getElem _ _ hlen]
  simp only [OutsideTemperature.init]
  rw [List.getElem_append_right (by simp; omega), List.getElem_map, List.getElem_range]
  simp only [List.length_map, List.length_range]
  rw [Nat.cast_sub (by omega)]
  norm_num

/-- The time-advance handler reads the curve at new_time mod 1440. -/
theorem OutsideTemperature.handle_time_current (mn mx : ℚ) (p t : ℤ) :
    ((OutsideTemperature.init mn mx).handle_time_update p t).current_temp
      = (OutsideTemperature.init mn mx).minute_temps.getD ((t % 1440).toNat) 0 := by
  simp [OutsideTemperature.handle_time_update, OutsideTemperature.length_minute_temps]

/-! ### Claim theorems: OutsideTemperature -/

/-- Claim C7: for an OutsideTemperature built with min_temp 0 and max_temp
720, the reported temperature after a time advance (from any previous time)
to time t is 0 at t = 0, 720 at t = 720, 0 at t = 1440, 440 at t = 440, and
620 at t = 820. -/
theorem claim_C7 (p : ℤ) :
    (((OutsideTemperature.init 0 720).handle_time_update p 0).current_temp = 0) ∧
    (((OutsideTemperature.init 0 720).handle_time_update p 720).current_temp = 720) ∧
    (((OutsideTemperature.init 0 720).handle_time_update p 1440).current_temp = 0) ∧
    (((OutsideTemperature.init 0 720).handle_time_update p 440).current_temp = 440) ∧
    (((OutsideTemperature.init 0 720).handle_time_update p 820).current_temp = 620) := by
  refine ⟨?_, ?_, ?_, ?_, ?_⟩ <;> rw [OutsideTemperature.handle_time_current]
  · have h : ((0 : ℤ) % 1440).toNat = 0 := by decide
    rw [h, OutsideTemperature.minute_temps_getD_of_lt _ _ _ (by omega)]; norm_num
  · have h : ((720 : ℤ) % 1440).toNat = 720 := by decide
    rw [h, OutsideTemperature.minute_temps_getD_of_ge _ _ _ (by omega) (by omega)]; norm_num
  · have h : ((1440 : ℤ) % 1440).toNat = 0 := by decide
    rw [h, OutsideTemperature.minute_temps_getD_of_lt _ _ _ (by omega)]; norm_num
  · have h : ((440 : ℤ) % 1440).toNat = 440 := by decide
    rw [h, OutsideTemperature.minute_temps_getD_of_lt _ _ _ (by omega)]; norm_num
  · have h : ((820 : ℤ) % 1440).toNat = 820 := by decide
    rw [h, OutsideTemperature.minute_temps_getD_of_ge _ _ _ (by omega) (by omega)]; norm_num

/-- Claim C9: the OutsideTemperature time-advance handler is a pure table
lookup keyed on the new time only, so delivering a second time-advance with
the same new time (after any first one, whatever the previous-time
arguments) leaves the entity exactly as the first delivery did. -/
theorem claim_C9 (ot : OutsideTemperature) (p1 p2 t : ℤ) :
    (ot.handle_time_update p1 t).handle_time_update p2 t
      = ot.handle_time_update p1 t := rfl

/-! ### Claim theorems: time-advance handlers and the outside impact -/

/-- Claim C5 counterexample: the OutsideTemperature time-advance handler
accepts a notification whose new timestamp (5) is not strictly greater than
the previous timestamp (5) and processes it, setting current_temp to the
sample at minute 5, instead of rejecting it; so not every core time-advance
handler asserts new_time > previous_time. -/
theorem claim_C5_counterexample :
    ¬ ((5 : ℤ) > 5) ∧
    ((OutsideTemperature.init 0 720).handle_time_update 5 5).current_temp = 5 := by
  constructor
  · omega
  · rw [OutsideTemperature.handle_time_current]
    have h : ((5 : ℤ) % 1440).toNat = 5 := by decide
    rw [h, OutsideTemperature.minute_temps_getD_of_lt _ _ _ (by omega)]
    norm_num

/-- Claim C5 amended: of the core's time-advance handlers, only the
Beehive's rejects a non-increasing timestamp (asserting
new_time > previous_time); the OutsideTemperature handler and the display
model handler assert only that the previous time is present and process the
notification regardless of ordering. -/
theorem claim_C5_amended (p n : ℤ) (hn : n ≤ p) :
    (∀ h : Beehive, h.handle_time_update p n = none) ∧
    (∀ ot : OutsideTemperature, ot.handle_time_update p n =
      { ot with current_temp :=
          (ot.minute_temps.getD ((n % (ot.minute_temps.length : ℤ)).toNat) 0) }) ∧
    (∀ d : BeehiveDisplayModel, d.handle_time_update p n =
      { d with previous_time := p, new_time := n }) := by
  refine ⟨?_, fun ot => rfl, fun d => rfl⟩
  intro h
  unfold Beehive.handle_time_update
  rw [if_neg (by omega)]

/-- Witness for the amended claim C5 at the non-increasing pair (5, 5). -/
theorem claim_C5_amended_witness :
    Beehive.handle_time_update (Beehive.init 0 0 0) 5 5 = none ∧
    (OutsideTemperature.init 0 720).handle_time_update 5 5 =
      { OutsideTemperature.init 0 720 with current_temp :=
          ((OutsideTemperature.init 0 720).minute_temps.getD
            (((5 : ℤ) % ((OutsideTemperature.init 0 720).minute_temps.length : ℤ)).toNat) 0) } ∧
    BeehiveDisplayModel.handle_time_update BeehiveDisplayModel.init 5 5 =
      { BeehiveDisplayModel.init with previous_time := 5, new_time := 5 } := by
  have h := claim_C5_amended 5 5 (le_refl 5)
  exact ⟨h.1 _, h.2.1 _, h.2.2 _⟩

/-- Claim C1 counterexample: a hive at temperature 10 whose last outside
reading is 0 (colder outside) is warmed by a time advance, ending at 12 =
10 + 0.2 * 10, not cooled toward the outside temperature as the claim
states (which would give 10 - 0.2 * 10 = 8): the outside contribution is
added with positive sign in both branches of the source. -/
theorem claim_C1_counterexample :
    (((Beehive.init 10 0 0).handle_outside_temperature_update 0
        ["current_temp"]).bind (fun h => h.handle_time_update 0 1)).map
      Beehive.current_temp = some 12 ∧
    ¬ ((12 : ℚ) = 10 - 0.2 * |(0 : ℚ) - 10|) := by
  constructor
  · norm_num [Beehive.init, Beehive.handle_outside_temperature_update,
      Beehive.handle_time_update, Beehive.get_number_bees_buzzing,
      Beehive.get_number_bees_fanning, Option.bind]
  · rw [show |(0 : ℚ) - 10| = 10 by rw [abs_of_nonpos (by norm_num)]; norm_num]
    norm_num

/-- Claim C1 amended: every accepted Beehive time-advance step adds to
current_temp exactly 0.2 times the absolute difference between outside_temp
and the pre-update current_temp, with positive sign in both branches (it
warms the hive whenever the two temperatures differ, moving toward
outside_temp only when outside_temp > current_temp), plus the bee impact
scaled by the elapsed time. -/
theorem claim_C1_amended (h : Beehive) (p n : ℤ) (hpn : p < n) :
    h.handle_time_update p n = some { h with current_temp :=
      h.current_temp + 0.2 * |h.outside_temp - h.current_temp| +
        ((h.get_number_bees_buzzing : ℚ) * h.buzzing_impact -
          (h.get_number_bees_fanning : ℚ) * h.fanning_impact)
            * ((n : ℚ) - (p : ℚ)) } := by
  by_cases hoc : h.outside_temp > h.current_temp
  · simp only [Beehive.handle_time_update, if_pos hpn, if_pos hoc,
      abs_of_pos (sub_pos.mpr hoc)]
  · simp only [Beehive.handle_time_update, if_pos hpn, if_neg hoc,
      abs_of_nonpos (sub_nonpos.mpr (not_lt.mp hoc)), neg_sub]

/-- Witness for the amended claim C1: a freshly built hive stepped from time
0 to time 1. -/
theorem claim_C1_amended_witness :
    Beehive.handle_time_update (Beehive.init 10 0 0) 0 1 =
      some { Beehive.init 10 0 0 with current_temp :=
        (Beehive.init 10 0 0).current_temp +
          0.2 * |(Beehive.init 10 0 0).outside_temp - (Beehive.init 10 0 0).current_temp| +
          (((Beehive.init 10 0 0).get_number_bees_buzzing : ℚ) *
              (Beehive.init 10 0 0).buzzing_impact -
            ((Beehive.init 10 0 0).get_number_bees_fanning : ℚ) *
              (Beehive.init 10 0 0).fanning_impact) * ((1 : ℚ) - (0 : ℚ)) } :=
  claim_C1_amended (Beehive.init 10 0 0) 0 1 (by omega)

/-! ### Claim theorems: Beehive temperature example, Bee behaviour,
Bee construction, untracked-bee rejection -/

/-- The hive of claim C2: start_temp 10, buzzing_impact 0.5, fanning_impact
0.25, three buzzing bees and one fanning bee delivered via created
notifications (outside_temp stays at the start value 10). -/
def hiveC2 : Beehive :=
  ((((Beehive.init 10 (1/2) (1/4)).handle_new_bee ⟨1, true, false⟩).handle_new_bee
      ⟨2, true, false⟩).handle_new_bee ⟨3, true, false⟩).handle_new_bee ⟨4, false, true⟩

/-- Claim C2: for the hive above, advancing time from 0 to 1 sets
current_temp to exactly 11.25, and advancing further from 1 to 2 sets it to
exactly 12.75. -/
theorem claim_C2 :
    (hiveC2.handle_time_update 0 1).map Beehive.current_temp = some 11.25 ∧
    ((hiveC2.handle_time_update 0 1).bind (fun h => h.handle_time_update 1 2)).map
      Beehive.current_temp = some 12.75 := by
  norm_num [hiveC2, Beehive.init, Beehive.handle_new_bee, Beehive.handle_time_update,
    Beehive.get_number_bees_buzzing, Beehive.get_number_bees_fanning, dictSet,
    List.find?, List.filter, Option.bind]

/-- Claim C4: for a Bee with buzz_temp < fan_temp receiving a
hive-temperature-changed notification carrying temperature t, the resulting
flags classify t three ways (strictly inside the bounds is idle, below the
lower bound is buzzing, above the upper bound is fanning), the two flags are
never both set, and the resulting flags depend only on t and the bounds, not
on the bee's prior flags. -/
theorem claim_C4 (bee : Bee) (t : ℚ) (props : List String)
    (hmem : "current_temp" ∈ props) (hbf : bee.buzz_temp < bee.fan_temp) :
    (bee.buzz_temp < t → t < bee.fan_temp →
      (bee.handle_temperature_change t props).is_buzzing = false ∧
      (bee.handle_temperature_change t props).is_fanning = false) ∧
    (t < bee.buzz_temp →
      (bee.handle_temperature_change t props).is_buzzing = true ∧
      (bee.handle_temperature_change t props).is_fanning = false) ∧
    (t > bee.fan_temp →
      (bee.handle_temperature_change t props).is_buzzing = false ∧
      (bee.handle_temperature_change t props).is_fanning = true) ∧
    (¬ ((bee.handle_temperature_change t props).is_buzzing = true ∧
      (bee.handle_temperature_change t props).is_fanning = true)) ∧
    (∀ bee2 : Bee, bee2.buzz_temp = bee.buzz_temp → bee2.fan_temp = bee.fan_temp →
      (bee2.handle_temperature_change t props).is_buzzing =
        (bee.handle_temperature_change t props).is_buzzing ∧
      (bee2.handle_temperature_change t props).is_fanning =
        (bee.handle_temperature_change t props).is_fanning) := by
  have hrun : ∀ b2 : Bee, b2.handle_temperature_change t props =
      if t < b2.buzz_temp then { b2 with is_buzzing := true, is_fanning := false }
      else if t > b2.fan_temp then { b2 with is_buzzing := false, is_fanning := true }
      else { b2 with is_buzzing := false, is_fanning := false } := by
    intro b2; unfold Bee.handle_temperature_change; rw [if_pos hmem]
  refine ⟨?_, ?_, ?_, ?_, ?_⟩
  · intro h1 h2
    rw [hrun, if_neg (by linarith), if_neg (by linarith)]
    exact ⟨rfl, rfl⟩
  · intro h1
    rw [hrun, if_pos h1]
    exact ⟨rfl, rfl⟩
  · intro h1
    rw [hrun, if_neg (by linarith), if_pos h1]
    exact ⟨rfl, rfl⟩
  · rw [hrun]; split_ifs <;> simp
  · intro bee2 hb hf
    rw [hrun, hrun, hb, hf]
    split_ifs <;> simp

/-- Witness for claim C4: the test bee with bounds (32, 100) at temperature
45 ends idle. -/
theorem claim_C4_witness :
    ((⟨32, 100, false, false⟩ : Bee).handle_temperature_change 45
        ["current_temp"]).is_buzzing = false ∧
    ((⟨32, 100, false, false⟩ : Bee).handle_temperature_change 45
        ["current_temp"]).is_fanning = false :=
  (claim_C4 ⟨32, 100, false, false⟩ 45 ["current_temp"] (by simp)
    (by norm_num)).1 (by norm_num) (by norm_num)

/-- Claim C6: a bee-changed notification (with a nonempty changed-property
set) for a guid that is not in the tracked mapping makes the handler fail
with an error rather than being silently tolerated; the failure is raised by
the mapping lookup, which in the source precedes every state mutation, so
the hive state is unchanged by the failed update. -/
theorem claim_C6 (h : Beehive) (bee : BeeRec) (props : List String)
    (hprops : props ≠ []) (huntracked : dictGet h.known_bees bee.guid = none) :
    h.handle_bee_update bee props = none := by
  unfold Beehive.handle_bee_update
  rw [if_neg (by simpa using hprops), huntracked]

/-- Witness for claim C6: a changed notification for bee 1 delivered to a
fresh hive that has never seen a created notification. -/
theorem claim_C6_witness :
    Beehive.handle_bee_update (Beehive.init 0 0 0) ⟨1, false, false⟩ ["is_buzzing"] = none :=
  claim_C6 _ _ _ (by simp) rfl

/-- Claim C8 counterexample: Bee construction with buzz_temp 100 and
fan_temp 50 succeeds even though fan_temp < buzz_temp, so not every
constructible Bee satisfies the data-model invariant fan_temp > buzz_temp:
the constructor checks only that each threshold is nonzero. -/
theorem claim_C8_counterexample :
    (Bee.init 100 50).map Bee.fan_temp = some 50 ∧
    (Bee.init 100 50).map Bee.buzz_temp = some 100 ∧
    ¬ ((50 : ℚ) > 100) := by
  norm_num [Bee.init]

/-- Claim C8 amended: the only failure mode of Bee construction is a zero
(falsy) comfort threshold, and every constructed Bee stores the two bounds
as given with both behaviour flags false; the invariant
fan_temp > buzz_temp is not enforced at construction. -/
theorem claim_C8_amended (b f : ℚ) :
    (Bee.init b f = none ↔ b = 0 ∨ f = 0) ∧
    (∀ bee : Bee, Bee.init b f = some bee →
      bee.buzz_temp = b ∧ bee.fan_temp = f ∧
        bee.is_buzzing = false ∧ bee.is_fanning = false) := by
  unfold Bee.init
  by_cases hb : b = 0
  · simp [hb]
  · by_cases hf : f = 0
    · simp [hb, hf]
    · simp only [if_neg hb, if_neg hf]
      constructor
      · simp [hb, hf]
      · intro bee hbee
        injection hbee with hbee
        subst hbee
        exact ⟨rfl, rfl, rfl, rfl⟩

/-- Witness for the amended claim C8: constructing the test bee with bounds
(32, 100). -/
theorem claim_C8_amended_witness :
    ((⟨32, 100, false, false⟩ : Bee).buzz_temp = 32 ∧
      (⟨32, 100, false, false⟩ : Bee).fan_temp = 100 ∧
      (⟨32, 100, false, false⟩ : Bee).is_buzzing = false ∧
      (⟨32, 100, false, false⟩ : Bee).is_fanning = false) :=
  (claim_C8_amended 32 100).2 ⟨32, 100, false, false⟩ (by norm_num [Bee.init])

/-! ### Claim C3: counter/recount invariant over bee lifecycle sequences -/

/-- The list of guids tracked by a bee mapping. -/
def beeKeys (m : List (ℕ × BeeRec)) : List ℕ := m.map Prod.fst

/-- The number of tracked bees whose given flag is set (matches
get_number_bees_buzzing / get_number_bees_fanning definitionally). -/
def flagCount (m : List (ℕ × BeeRec)) (p : BeeRec → Bool) : ℕ :=
  ((m.map Prod.snd).filter p).length

theorem dictGet_none_iff (m : List (ℕ × BeeRec)) (k : ℕ) :
    dictGet m k = none ↔ k ∉ beeKeys m := by
  simp only [dictGet, Option.map_eq_none', List.find?_eq_none, beeKeys, List.mem_map,
    beq_iff_eq]
  constructor
  · rintro hall ⟨p, hp, hk⟩
    exact hall p hp hk
  · intro hnot p hp hk
    exact hnot ⟨p, hp, hk⟩

theorem dictGet_some_find? (m : List (ℕ × BeeRec)) (k : ℕ) (bee : BeeRec)
    (h : dictGet m k = some bee) :
    m.find? (fun p => p.1 == k) = some (k, bee) := by
  unfold dictGet at h
  obtain ⟨q, hq, hq2⟩ := Option.map_eq_some'.mp h
  have hq1 : q.1 = k := by simpa using List.find?_some hq
  rw [hq]
  cases q
  simp_all

theorem dictSet_fresh (m : List (ℕ × BeeRec)) (k : ℕ) (v : BeeRec)
    (hk : k ∉ beeKeys m) : dictSet m k v = m ++ [(k, v)] := by
  have hfind : m.find? (fun p => p.1 == k) = none := by
    rw [List.find?_eq_none]
    intro p hp
    simp only [beq_iff_eq]
    intro hkk
    exact hk (List.mem_map.mpr ⟨p, hp, hkk⟩)
  simp [dictSet, hfind]

theorem dictSet_mem (m : List (ℕ × BeeRec)) (k : ℕ) (v : BeeRec)
    (hsome : (m.find? (fun p => p.1 == k)).isSome) :
    dictSet m k v = m.map (fun p => if p.1 == k then (k, v) else p) := by
  simp [dictSet, hsome]

theorem beeKeys_append_single (m : List (ℕ × BeeRec)) (k : ℕ) (v : BeeRec) :
    beeKeys (m ++ [(k, v)]) = beeKeys m ++ [k] := by
  simp [beeKeys]

theorem beeKeys_set_of_mem (m : List (ℕ × BeeRec)) (k : ℕ) (v : BeeRec)
    (hsome : (m.find? (fun p => p.1 == k)).isSome) :
    beeKeys (dictSet m k v) = beeKeys m := by
  rw [dictSet_mem _ _ _ hsome]
  unfold beeKeys
  rw [List.map_map]
  apply List.map_congr_left
  intro q _
  by_cases hq : q.1 = k
  · simp [hq]
  · simp [hq]

theorem beeKeys_pop_nodup (m : List (ℕ × BeeRec)) (k : ℕ)
    (hnd : (beeKeys m).Nodup) : (beeKeys (dictPop m k)).Nodup := by
  apply hnd.sublist
  exact (List.filter_sublist _).map _

theorem flagCount_append_single (m : List (ℕ × BeeRec)) (k : ℕ) (v : BeeRec)
    (p : BeeRec → Bool) :
    flagCount (m ++ [(k, v)]) p = flagCount m p + (if p v then 1 else 0) := by
  simp only [flagCount, List.map_append, List.filter_append]
  cases hpv : p v <;> simp [hpv]

theorem filter_ne_of_not_mem (t : List (ℕ × BeeRec)) (k : ℕ)
    (hk : k ∉ beeKeys t) : t.filter (fun p => p.1 != k) = t := by
  rw [List.filter_eq_self]
  intro q hq
  simp only [bne_iff_ne, ne_eq, decide_eq_true_eq]
  intro hqk
  exact hk (List.mem_map.mpr ⟨q, hq, hqk⟩)

theorem map_replace_of_not_mem (t : List (ℕ × BeeRec)) (k : ℕ) (v : BeeRec)
    (hk : k ∉ beeKeys t) :
    t.map (fun q => if q.1 == k then (k, v) else q) = t := by
  have hpt : ∀ q ∈ t, (if q.1 == k then (k, v) else q) = q := by
    intro q hq
    rw [if_neg]
    simp only [beq_iff_eq]
    intro hqk
    exact hk (List.mem_map.mpr ⟨q, hq, hqk⟩)
  rw [List.map_congr_left hpt]
  simp

theorem flagCount_cons (a : ℕ × BeeRec) (t : List (ℕ × BeeRec)) (p : BeeRec → Bool) :
    flagCount (a :: t) p = flagCount t p + (if p a.2 then 1 else 0) := by
  simp only [flagCount, List.map_cons, List.filter_cons]
  cases hpa : p a.2 <;> simp [hpa]

/-- Removing the tracked entry at a key decreases the flag recount by
exactly that entry's flag contribution. -/
theorem flagCount_pop (m : List (ℕ × BeeRec)) (k : ℕ) (bee : BeeRec)
    (p : BeeRec → Bool) (hnd : (beeKeys m).Nodup) (hget : dictGet m k = some bee) :
    flagCount (dictPop m k) p + (if p bee then 1 else 0) = flagCount m p := by
  induction m with
  | nil => simp [dictGet] at hget
  | cons a t ih =>
      have hnd' : a.1 ∉ beeKeys t ∧ (beeKeys t).Nodup := by
        simpa [beeKeys] using hnd
      by_cases hak : a.1 = k
      · have hfind := dictGet_some_find? _ _ _ hget
        rw [List.find?_cons, show (a.1 == k) = true by simpa using hak] at hfind
        have ha : a = (k, bee) := by simpa using hfind
        have hpop : dictPop (a :: t) k = t := by
          simp only [dictPop, List.filter_cons]
          rw [if_neg (by simp [hak])]
          exact filter_ne_of_not_mem t k (hak ▸ hnd'.1)
        rw [hpop, flagCount_cons, ha]
      · have hget' : dictGet t k = some bee := by
          unfold dictGet at hget ⊢
          rw [List.find?_cons, show (a.1 == k) = false by simpa using hak] at hget
          exact hget
        have hrec := ih hnd'.2 hget'
        have hpop : dictPop (a :: t) k = a :: dictPop t k := by
          simp [dictPop, List.filter_cons, hak]
        rw [hpop, flagCount_cons, flagCount_cons]
        omega

/-- Overwriting the tracked entry at a key shifts the flag recount by the
delta between the old and new flag values. -/
theorem flagCount_replace (m : List (ℕ × BeeRec)) (k : ℕ) (prev v : BeeRec)
    (p : BeeRec → Bool) (hnd : (beeKeys m).Nodup) (hget : dictGet m k = some prev) :
    flagCount (m.map (fun q => if q.1 == k then (k, v) else q)) p
        + (if p prev then 1 else 0)
      = flagCount m p + (if p v then 1 else 0) := by
  induction m with
  | nil => simp [dictGet] at hget
  | cons a t ih =>
      have hnd' : a.1 ∉ beeKeys t ∧ (beeKeys t).Nodup := by
        simpa [beeKeys] using hnd
      by_cases hak : a.1 = k
      · have hfind := dictGet_some_find? _ _ _ hget
        rw [List.find?_cons, show (a.1 == k) = true by simpa using hak] at hfind
        have ha : a = (k, prev) := by simpa using hfind
        rw [List.map_cons, if_pos (by simpa using hak)]
        rw [map_replace_of_not_mem t k v (hak ▸ hnd'.1)]
        rw [flagCount_cons, flagCount_cons, ha]
        dsimp only
        omega
      · have hget' : dictGet t k = some prev := by
          unfold dictGet at hget ⊢
          rw [List.find?_cons, show (a.1 == k) = false by simpa using hak] at hget
          exact hget
        have hrec := ih hnd'.2 hget'
        rw [List.map_cons, if_neg (by simpa using hak)]
        rw [flagCount_cons, flagCount_cons]
        omega

theorem flagCount_set (m : List (ℕ × BeeRec)) (k : ℕ) (prev v : BeeRec)
    (p : BeeRec → Bool) (hnd : (beeKeys m).Nodup) (hget : dictGet m k = some prev) :
    flagCount (dictSet m k v) p + (if p prev then 1 else 0)
      = flagCount m p + (if p v then 1 else 0) := by
  have hsome : (m.find? (fun q => q.1 == k)).isSome := by
    rw [dictGet_some_find? _ _ _ hget]; rfl
  rw [dictSet_mem _ _ _ hsome]
  exact flagCount_replace m k prev v p hnd hget

theorem beeKeys_set_nodup (m : List (ℕ × BeeRec)) (k : ℕ) (prev v : BeeRec)
    (hnd : (beeKeys m).Nodup) (hget : dictGet m k = some prev) :
    (beeKeys (dictSet m k v)).Nodup := by
  have hsome : (m.find? (fun q => q.1 == k)).isSome := by
    rw [dictGet_some_find? _ _ _ hget]; rfl
  rw [beeKeys_set_of_mem _ _ _ hsome]
  exact hnd

/-- One bee lifecycle notification as delivered to the Beehive: a created
event carrying the bee snapshot, a destroyed event carrying the guid, or a
changed event carrying the new snapshot and the changed-property names. -/
inductive BeeOp where
  | create (bee : BeeRec)
  | destroy (guid : ℕ)
  | change (bee : BeeRec) (changed_properties : List String)
  deriving DecidableEq, Repr

/-- Dispatch one notification to the matching Beehive handler. -/
def Beehive.applyOp (h : Beehive) : BeeOp → Option Beehive
  | BeeOp.create bee => some (h.handle_new_bee bee)
  | BeeOp.destroy guid => h.handle_dead_bee guid
  | BeeOp.change bee props => h.handle_bee_update bee props

/-- Deliver a sequence of notifications in order; none as soon as one
handler fails. -/
def Beehive.runOps (h : Beehive) : List BeeOp → Option Beehive
  | [] => some h
  | op :: rest =>
      match h.applyOp op with
      | none => none
      | some h2 => h2.runOps rest

/-- Number of created events in a sequence. -/
def countCreates (ops : List BeeOp) : ℕ :=
  ops.countP (fun op => match op with | BeeOp.create _ => true | _ => false)

/-- Number of destroyed events in a sequence. -/
def countDestroys (ops : List BeeOp) : ℕ :=
  ops.countP (fun op => match op with | BeeOp.destroy _ => true | _ => false)

/-- Every created event in the sequence is for a guid not tracked at the
moment it is delivered (the scheduler never announces the same live bee
twice). -/
def FreshCreates (h : Beehive) : List BeeOp → Prop
  | [] => True
  | BeeOp.create bee :: rest =>
      bee.guid ∉ beeKeys h.known_bees ∧ FreshCreates (h.handle_new_bee bee) rest
  | op :: rest => ∀ h2 : Beehive, h.applyOp op = some h2 → FreshCreates h2 rest

/-- The invariant carried through bee lifecycle events: tracked guids are
distinct and both edge-triggered counters agree with recounts over the
mapping. -/
def BeehiveCountersInv (h : Beehive) : Prop :=
  (beeKeys h.known_bees).Nodup ∧
  h.number_bees_buzzing = (flagCount h.known_bees (fun b => b.is_buzzing) : ℤ) ∧
  h.number_bees_fanning = (flagCount h.known_bees (fun b => b.is_fanning) : ℤ)

theorem inv_new_bee (h : Beehive) (bee : BeeRec) (hinv : BeehiveCountersInv h)
    (hfresh : bee.guid ∉ beeKeys h.known_bees) :
    BeehiveCountersInv (h.handle_new_bee bee) := by
  obtain ⟨hnd, hbz, hfn⟩ := hinv
  unfold BeehiveCountersInv Beehive.handle_new_bee
  simp only
  rw [dictSet_fresh _ _ _ hfresh]
  refine ⟨?_, ?_, ?_⟩
  · rw [beeKeys_append_single]
    simp [List.nodup_append, hnd, hfresh]
  · rw [flagCount_append_single]
    cases hb : bee.is_buzzing <;> simp [hb, hbz]
  · rw [flagCount_append_single]
    cases hf : bee.is_fanning <;> simp [hf, hfn]

theorem inv_dead_bee (h : Beehive) (g : ℕ) (h2 : Beehive)
    (hinv : BeehiveCountersInv h) (hstep : h.handle_dead_bee g = some h2) :
    BeehiveCountersInv h2 ∧ h2.number_bees = h.number_bees - 1 := by
  obtain ⟨hnd, hbz, hfn⟩ := hinv
  unfold Beehive.handle_dead_bee at hstep
  cases hget : dictGet h.known_bees g with
  | none => rw [hget] at hstep; cases hstep
  | some bee =>
      rw [hget] at hstep
      injection hstep with hstep
      subst hstep
      refine ⟨⟨?_, ?_, ?_⟩, rfl⟩
      · exact beeKeys_pop_nodup _ _ hnd
      · have := flagCount_pop h.known_bees g bee (fun b => b.is_buzzing) hnd hget
        simp only
        cases hb : bee.is_buzzing <;> simp only [hb] at this ⊢ <;> simp at this ⊢ <;> omega
      · have := flagCount_pop h.known_bees g bee (fun b => b.is_fanning) hnd hget
        simp only
        cases hf : bee.is_fanning <;> simp only [hf] at this ⊢ <;> simp at this ⊢ <;> omega

theorem inv_bee_update (h : Beehive) (bee : BeeRec) (props : List String)
    (h2 : Beehive) (hinv : BeehiveCountersInv h)
    (hstep : h.handle_bee_update bee props = some h2) :
    BeehiveCountersInv h2 ∧ h2.number_bees = h.number_bees := by
  obtain ⟨hnd, hbz, hfn⟩ := hinv
  unfold Beehive.handle_bee_update at hstep
  by_cases hemp : props.isEmpty
  · rw [if_pos hemp] at hstep; cases hstep
  · rw [if_neg hemp] at hstep
    cases hget : dictGet h.known_bees bee.guid with
    | none => rw [hget] at hstep; cases hstep
    | some prev =>
        rw [hget] at hstep
        injection hstep with hstep
        subst hstep
        refine ⟨⟨?_, ?_, ?_⟩, rfl⟩
        · exact beeKeys_set_nodup _ _ prev _ hnd hget
        · have := flagCount_set h.known_bees bee.guid prev bee
            (fun b => b.is_buzzing) hnd hget
          simp only
          cases hb : bee.is_buzzing <;> cases hpb : prev.is_buzzing <;>
            simp only [hb, hpb] at this ⊢ <;> simp at this ⊢ <;> omega
        · have := flagCount_set h.known_bees bee.guid prev bee
            (fun b => b.is_fanning) hnd hget
          simp only
          cases hf : bee.is_fanning <;> cases hpf : prev.is_fanning <;>
            simp only [hf, hpf] at this ⊢ <;> simp at this ⊢ <;> omega

/-- Running a well-formed sequence preserves the counter invariant and moves
number_bees by exactly the net create/destroy count. -/
theorem runOps_inv : ∀ (ops : List BeeOp) (h h2 : Beehive),
    BeehiveCountersInv h → FreshCreates h ops → h.runOps ops = some h2 →
    BeehiveCountersInv h2 ∧
      h2.number_bees = h.number_bees + (countCreates ops : ℤ) - (countDestroys ops : ℤ) := by
  intro ops
  induction ops with
  | nil =>
      intro h h2 hinv _ hrun
      unfold Beehive.runOps at hrun
      injection hrun with hrun
      subst hrun
      simp [countCreates, countDestroys, hinv]
  | cons op rest ih =>
      intro h h2 hinv hfresh hrun
      unfold Beehive.runOps at hrun
      cases op with
      | create bee =>
          simp only [Beehive.applyOp] at hrun
          obtain ⟨hf, hfr⟩ : bee.guid ∉ beeKeys h.known_bees ∧
              FreshCreates (h.handle_new_bee bee) rest := hfresh
          obtain ⟨hinv2, hnum⟩ := ih _ _ (inv_new_bee h bee hinv hf) hfr hrun
          refine ⟨hinv2, ?_⟩
          have hnb : (h.handle_new_bee bee).number_bees = h.number_bees + 1 := rfl
          rw [hnum, hnb]
          simp only [countCreates, countDestroys, List.countP_cons]
          push_cast
          omega
      | destroy g =>
          simp only [Beehive.applyOp] at hrun
          cases hd : h.handle_dead_bee g with
          | none => rw [hd] at hrun; cases hrun
          | some h1 =>
              rw [hd] at hrun
              have hfr : FreshCreates h1 rest := hfresh h1 (by simp [Beehive.applyOp, hd])
              obtain ⟨hinv1, hnum1⟩ := inv_dead_bee h g h1 hinv hd
              obtain ⟨hinv2, hnum⟩ := ih _ _ hinv1 hfr hrun
              refine ⟨hinv2, ?_⟩
              rw [hnum, hnum1]
              simp only [countCreates, countDestroys, List.countP_cons]
              push_cast
              omega
      | change bee props =>
          simp only [Beehive.applyOp] at hrun
          cases hd : h.handle_bee_update bee props with
          | none => rw [hd] at hrun; cases hrun
          | some h1 =>
              rw [hd] at hrun
              have hfr : FreshCreates h1 rest := hfresh h1 (by simp [Beehive.applyOp, hd])
              obtain ⟨hinv1, hnum1⟩ := inv_bee_update h bee props h1 hinv hd
              obtain ⟨hinv2, hnum⟩ := ih _ _ hinv1 hfr hrun
              refine ⟨hinv2, ?_⟩
              rw [hnum, hnum1]
              simp only [countCreates, countDestroys, List.countP_cons]
              push_cast
              omega

/-- Claim C3 counterexample: two created notifications for the same guid
(which the claim's precondition does not exclude, since it restricts only
destroys and changes) leave number_bees_buzzing at 2 while the recount over
the tracked mapping is 1: the stated invariant fails for that sequence. -/
theorem claim_C3_counterexample :
    (Beehive.runOps (Beehive.init 0 0 0)
        [BeeOp.create ⟨1, true, false⟩, BeeOp.create ⟨1, true, false⟩]).map
      (fun h => (h.number_bees_buzzing, (h.get_number_bees_buzzing : ℤ))) = some (2, 1) ∧
    (2 : ℤ) ≠ 1 := by
  constructor
  · rfl
  · decide

/-- Claim C3 amended: for every sequence of bee created/destroyed/changed
notifications in which each created event is for a guid not currently
tracked and every delivery succeeds (so destroys and changes target
currently tracked guids and changes carry a nonempty changed-property set),
the final number_bees equals the net count of creates minus destroys, and
each edge-triggered counter equals the recount over the tracked mapping. -/
theorem claim_C3_amended (s bi fi : ℚ) (ops : List BeeOp) (hF : Beehive)
    (hfresh : FreshCreates (Beehive.init s bi fi) ops)
    (hrun : (Beehive.init s bi fi).runOps ops = some hF) :
    hF.number_bees = (countCreates ops : ℤ) - (countDestroys ops : ℤ) ∧
    hF.number_bees_buzzing = (hF.get_number_bees_buzzing : ℤ) ∧
    hF.number_bees_fanning = (hF.get_number_bees_fanning : ℤ) := by
  have h0 : BeehiveCountersInv (Beehive.init s bi fi) := by
    refine ⟨?_, ?_, ?_⟩ <;> simp [Beehive.init, beeKeys, flagCount]
  obtain ⟨hinv, hnum⟩ := runOps_inv ops _ _ h0 hfresh hrun
  refine ⟨?_, hinv.2.1, hinv.2.2⟩
  rw [hnum]
  simp [Beehive.init]

/-- The sequence used by the witness for the amended claim C3. -/
def opsC3W : List BeeOp :=
  [BeeOp.create ⟨1, true, false⟩, BeeOp.create ⟨2, false, true⟩]

/-- The hive state reached by the witness sequence for the amended claim
C3. -/
def hiveC3W : Beehive :=
  { current_temp := 0, outside_temp := 0, buzzing_impact := 0, fanning_impact := 0,
    number_bees := 2, number_bees_buzzing := 1, number_bees_fanning := 1,
    known_bees := [(1, ⟨1, true, false⟩), (2, ⟨2, false, true⟩)] }

/-- Witness for the amended claim C3: a fresh hive receives two created
notifications (one buzzing bee, one fanning bee) and both counters agree
with the recount while number_bees is the net create count. -/
theorem claim_C3_witness :
    hiveC3W.number_bees = (countCreates opsC3W : ℤ) - (countDestroys opsC3W : ℤ) ∧
    hiveC3W.number_bees_buzzing = (hiveC3W.get_number_bees_buzzing : ℤ) ∧
    hiveC3W.number_bees_fanning = (hiveC3W.get_number_bees_fanning : ℤ) :=
  claim_C3_amended 0 0 0 opsC3W hiveC3W
    (by simp [opsC3W, FreshCreates, Beehive.init, Beehive.handle_new_bee, dictSet, beeKeys])
    rfl

/-- Witness for claim C7: the table lookup at time 440 on the (0, 720)
instance. -/
theorem claim_C7_witness :
    ((OutsideTemperature.init 0 720).handle_time_update 0 440).current_temp = 440 :=
  (claim_C7 0).2.2.2.1

/-- Witness for claim C9: repeating the time-advance to 440 on the (0, 720)
instance reproduces the same entity state. -/
theorem claim_C9_witness :
    ((OutsideTemperature.init 0 720).handle_time_update 0 440).handle_time_update 440 440
      = (OutsideTemperature.init 0 720).handle_time_update 0 440 :=
  claim_C9 (OutsideTemperature.init 0 720) 0 440 440
